import Mathlib

/-!
Shallow embedding of the ruma schema layer covered by the specification:
the open (extensible) string enumerations of
`crates/ruma-common/src/events/key/verification.rs` and the
`get_content_thumbnail` endpoint of
`crates/ruma-client-api/src/media/get_content_thumbnail.rs`
(request/response shapes, endpoint metadata, version resolution,
content-URI decomposition), together with theorems settling the claims
about them.

Feature-gated items (`unstable-msc3783`, `unstable-msc2246`) are embedded
with the feature present; where serialization depends on the feature, the
flag is an explicit boolean parameter, following the design note of the
specification that feature gates are to be modelled as runtime
configuration.
-/

namespace Ruma

/-- The private string wrapper used by custom variants of open enums
(`PrivOwnedStr` in the source, a wrapper around an owned string). -/
structure PrivOwnedStr where
  s : String
deriving DecidableEq, Repr

/-! ## Open enumerations

Each open enum is an inductive type with the known variants declared in the
source plus a `_Custom` variant wrapping an arbitrary string. The canonical
wire strings come from the `rename_all` / `ruma_enum(rename)` attributes on
the source declarations (confirmed by the unit tests in
`verification.rs`). The conversions `as_str` (serialize) and `fromStr`
(parse) are modelled from the spec: the `StringEnum` derive macro itself is
not part of the given sources; the spec states that parsing tries each
known canonical string in declared order, case-sensitively, falling back
to the custom variant wrapping the input unchanged, and that serializing a
known variant yields its canonical string while serializing a custom
variant yields the wrapped string. -/

/-- The desired resizing method (`Method` in `get_content_thumbnail.rs`,
`rename_all = "snake_case"`). -/
inductive Method where
  | Crop
  | Scale
  | _Custom (s : PrivOwnedStr)
deriving DecidableEq, Repr

/-- Serialization of `Method` to its wire string. -/
def Method.as_str : Method → String
  | .Crop => "crop"
  | .Scale => "scale"
  | ._Custom p => p.s

/-- Modelled from the spec: parsing of a `Method` wire string (the
`StringEnum` derive is not among the given sources); first canonical match
in declared order wins, otherwise the custom variant wraps the input. -/
def Method.fromStr (s : String) : Method :=
  if s = "crop" then .Crop
  else if s = "scale" then .Scale
  else ._Custom ⟨s⟩

/-- Whether a `Method` value is a known (non-custom) variant. -/
def Method.isKnown : Method → Bool
  | ._Custom _ => false
  | _ => true

/-- A hash algorithm (`HashAlgorithm` in `verification.rs`,
`rename_all = "snake_case"`). -/
inductive HashAlgorithm where
  | Sha256
  | _Custom (s : PrivOwnedStr)
deriving DecidableEq, Repr

/-- Serialization of `HashAlgorithm` to its wire string. -/
def HashAlgorithm.as_str : HashAlgorithm → String
  | .Sha256 => "sha256"
  | ._Custom p => p.s

/-- Modelled from the spec: parsing of a `HashAlgorithm` wire string. -/
def HashAlgorithm.fromStr (s : String) : HashAlgorithm :=
  if s = "sha256" then .Sha256
  else ._Custom ⟨s⟩

/-- Whether a `HashAlgorithm` value is a known variant. -/
def HashAlgorithm.isKnown : HashAlgorithm → Bool
  | ._Custom _ => false
  | _ => true

/-- A key agreement protocol (`KeyAgreementProtocol` in `verification.rs`,
`rename_all = "kebab-case"`). -/
inductive KeyAgreementProtocol where
  | Curve25519
  | Curve25519HkdfSha256
  | _Custom (s : PrivOwnedStr)
deriving DecidableEq, Repr

/-- Serialization of `KeyAgreementProtocol` to its wire string. -/
def KeyAgreementProtocol.as_str : KeyAgreementProtocol → String
  | .Curve25519 => "curve25519"
  | .Curve25519HkdfSha256 => "curve25519-hkdf-sha256"
  | ._Custom p => p.s

/-- Modelled from the spec: parsing of a `KeyAgreementProtocol` wire
string. -/
def KeyAgreementProtocol.fromStr (s : String) : KeyAgreementProtocol :=
  if s = "curve25519" then .Curve25519
  else if s = "curve25519-hkdf-sha256" then .Curve25519HkdfSha256
  else ._Custom ⟨s⟩

/-- Whether a `KeyAgreementProtocol` value is a known variant. -/
def KeyAgreementProtocol.isKnown : KeyAgreementProtocol → Bool
  | ._Custom _ => false
  | _ => true

/-- A message authentication code algorithm (`MessageAuthenticationCode`
in `verification.rs`, `rename_all = "kebab-case"`, with the
`unstable-msc3783` variant present and its explicit rename). -/
inductive MessageAuthenticationCode where
  | HkdfHmacSha256
  | HkdfHmacSha256V2
  | HmacSha256
  | _Custom (s : PrivOwnedStr)
deriving DecidableEq, Repr

/-- Serialization of `MessageAuthenticationCode` to its wire string. -/
def MessageAuthenticationCode.as_str : MessageAuthenticationCode → String
  | .HkdfHmacSha256 => "hkdf-hmac-sha256"
  | .HkdfHmacSha256V2 => "org.matrix.msc3783.hkdf-hmac-sha256"
  | .HmacSha256 => "hmac-sha256"
  | ._Custom p => p.s

/-- Modelled from the spec: parsing of a `MessageAuthenticationCode` wire
string. -/
def MessageAuthenticationCode.fromStr (s : String) : MessageAuthenticationCode :=
  if s = "hkdf-hmac-sha256" then .HkdfHmacSha256
  else if s = "org.matrix.msc3783.hkdf-hmac-sha256" then .HkdfHmacSha256V2
  else if s = "hmac-sha256" then .HmacSha256
  else ._Custom ⟨s⟩

/-- Whether a `MessageAuthenticationCode` value is a known variant. -/
def MessageAuthenticationCode.isKnown : MessageAuthenticationCode → Bool
  | ._Custom _ => false
  | _ => true

/-- A Short Authentication String method (`ShortAuthenticationString` in
`verification.rs`, `rename_all = "snake_case"`). -/
inductive ShortAuthenticationString where
  | Decimal
  | Emoji
  | _Custom (s : PrivOwnedStr)
deriving DecidableEq, Repr

/-- Serialization of `ShortAuthenticationString` to its wire string. -/
def ShortAuthenticationString.as_str : ShortAuthenticationString → String
  | .Decimal => "decimal"
  | .Emoji => "emoji"
  | ._Custom p => p.s

/-- Modelled from the spec: parsing of a `ShortAuthenticationString` wire
string. -/
def ShortAuthenticationString.fromStr (s : String) : ShortAuthenticationString :=
  if s = "decimal" then .Decimal
  else if s = "emoji" then .Emoji
  else ._Custom ⟨s⟩

/-- Whether a `ShortAuthenticationString` value is a known variant. -/
def ShortAuthenticationString.isKnown : ShortAuthenticationString → Bool
  | ._Custom _ => false
  | _ => true

/-- A SAS verification method (`VerificationMethod` in `verification.rs`,
every known variant carrying an explicit `ruma_enum(rename)`). -/
inductive VerificationMethod where
  | SasV1
  | QrCodeScanV1
  | QrCodeShowV1
  | ReciprocateV1
  | _Custom (s : PrivOwnedStr)
deriving DecidableEq, Repr

/-- Serialization of `VerificationMethod` to its wire string. -/
def VerificationMethod.as_str : VerificationMethod → String
  | .SasV1 => "m.sas.v1"
  | .QrCodeScanV1 => "m.qr_code.scan.v1"
  | .QrCodeShowV1 => "m.qr_code.show.v1"
  | .ReciprocateV1 => "m.reciprocate.v1"
  | ._Custom p => p.s

/-- Modelled from the spec: parsing of a `VerificationMethod` wire
string. -/
def VerificationMethod.fromStr (s : String) : VerificationMethod :=
  if s = "m.sas.v1" then .SasV1
  else if s = "m.qr_code.scan.v1" then .QrCodeScanV1
  else if s = "m.qr_code.show.v1" then .QrCodeShowV1
  else if s = "m.reciprocate.v1" then .ReciprocateV1
  else ._Custom ⟨s⟩

/-- Whether a `VerificationMethod` value is a known variant. -/
def VerificationMethod.isKnown : VerificationMethod → Bool
  | ._Custom _ => false
  | _ => true

/-! ## Endpoint metadata and version resolution -/

/-- A Matrix protocol version, written `major.minor` in the source
(`1.0`, `1.1`, ...). -/
structure MatrixVersion where
  major : Nat
  minor : Nat
deriving DecidableEq, Repr

/-- Ordering of protocol versions: lexicographic on (major, minor). -/
def MatrixVersion.le (a b : MatrixVersion) : Bool :=
  a.major < b.major || (a.major = b.major && a.minor ≤ b.minor)

/-- The path history declared by the `METADATA` of the
`get_content_thumbnail` endpoint (lines 21-29 of the source), ordered by
version ascending. -/
def thumbnailHistory : List (MatrixVersion × String) :=
  [(⟨1, 0⟩, "/_matrix/media/r0/thumbnail/:server_name/:media_id"),
   (⟨1, 1⟩, "/_matrix/media/v3/thumbnail/:server_name/:media_id")]

/-- The error raised when the requested version is below every entry of a
path history; it carries the minimum supported version. -/
inductive ResolveError where
  | UnsupportedVersion (minimum : MatrixVersion)
deriving DecidableEq, Repr

/-- Modelled from the spec: path-template resolution (the `metadata!` /
`VersionHistory` machinery is not among the given sources). Scan the
history for the greatest entry whose version is at most the requested
version; if the requested version is below the smallest declared version,
fail with an unsupported-version error naming the minimum supported
version. A request above the highest entry resolves to the highest
entry. -/
def resolvePath (history : List (MatrixVersion × String)) (v : MatrixVersion) :
    Except ResolveError String :=
  match (history.filter (fun e => e.1.le v)).getLast? with
  | some e => .ok e.2
  | none =>
      .error (.UnsupportedVersion
        (match history.head? with
         | some e => e.1
         | none => v))

/-- Splitting of a character list at every `/`, the path-segment
separator (a structurally recursive counterpart of splitting a string on
`/`). -/
def splitSlash : List Char → List (List Char)
  | [] => [[]]
  | c :: rest =>
      if c = '/' then [] :: splitSlash rest
      else
        match splitSlash rest with
        | [] => [[c]]
        | g :: gs => (c :: g) :: gs

/-- Joining of character-list segments with `/` separators, the inverse
direction of `splitSlash`. -/
def joinSlash : List (List Char) → List Char
  | [] => []
  | [g] => g
  | g :: gs => g ++ '/' :: joinSlash gs

/-- Modelled from the spec: substitution of named path placeholders
(`:server_name`, `:media_id` in the source templates) by the path-field
values of the thumbnail request. -/
def substPath (template serverName mediaId : String) : String :=
  String.mk (joinSlash ((splitSlash template.data).map (fun seg =>
    if seg = (":server_name").data then serverName.data
    else if seg = (":media_id").data then mediaId.data
    else seg)))

/-! ## Content-URI decomposition -/

/-- The error returned when a content URI cannot be decomposed. -/
inductive UriError where
  | MalformedUri
deriving DecidableEq, Repr

/-- Modelled from the spec: content-URI decomposition (`MxcUri::parts` is
not among the given sources). A well-formed content URI is
`mxc://{server_name}/{media_id}`; decomposition fails with `MalformedUri`
when the scheme is missing, the authority component is missing or empty,
or the path component is missing or empty; the media id is the remaining
path content verbatim. -/
def decomposeMxc (uri : String) : Except UriError (String × String) :=
  match uri.data with
  | 'm' :: 'x' :: 'c' :: ':' :: '/' :: '/' :: rest =>
      match splitSlash rest with
      | [] => .error .MalformedUri
      | [_] => .error .MalformedUri
      | server :: parts =>
          let mediaId := joinSlash parts
          if server = [] then .error .MalformedUri
          else if mediaId = [] then .error .MalformedUri
          else .ok (String.mk server, String.mk mediaId)
  | _ => .error .MalformedUri

/-! ## The thumbnail request and response -/

/-- The request of the `get_content_thumbnail` endpoint (lines 31-81 of
the source). `server_name` and `media_id` are path fields; `method`,
`width`, `height`, `allow_remote` and `max_stall_ms` are query fields.
The feature-gated `max_stall_ms` field is embedded unconditionally;
whether it participates in serialization is controlled by a flag on the
serializer. `UInt` values (`width`, `height`, `max_stall_ms`) are embedded
as `Nat`. -/
structure Request where
  server_name : String
  media_id : String
  method : Option Method
  width : Nat
  height : Nat
  allow_remote : Bool
  max_stall_ms : Option Nat
deriving DecidableEq, Repr

/-- `Request::new` from the source: given media id, server name, width and
height, the remaining fields are `method = None`, `allow_remote = true`,
`max_stall_ms = None`. -/
def Request.new (media_id : String) (server_name : String)
    (width : Nat) (height : Nat) : Request :=
  { media_id := media_id
    server_name := server_name
    method := none
    width := width
    height := height
    allow_remote := true
    max_stall_ms := none }

/-- `Request::from_url` from the source: decompose the content URI into
server name and media id, propagating a decomposition failure, and
delegate to `Request.new`. -/
def Request.from_url (url : String) (width : Nat) (height : Nat) :
    Except UriError Request :=
  match decomposeMxc url with
  | .error e => .error e
  | .ok (server_name, media_id) =>
      .ok (Request.new media_id server_name width height)

/-- Modelled from the spec: the query-string assembly of the request macro
(the `ruma_api` request derive is not among the given sources), following
the serde attributes declared on the source fields in declared order:
`method` is omitted when `None`; `width` and `height` are always emitted;
`allow_remote` is omitted when equal to its default `true`; under the
`unstable-msc2246` feature (the `msc2246` flag), `max_stall_ms` is emitted
under the wire name `fi.mau.msc2246.max_stall_ms` and omitted when equal
to its default `None`. -/
def Request.queryPairs (msc2246 : Bool) (r : Request) : List (String × String) :=
  (match r.method with
   | none => []
   | some m => [("method", m.as_str)]) ++
  [("width", toString r.width), ("height", toString r.height)] ++
  (if r.allow_remote then [] else [("allow_remote", "false")]) ++
  (if msc2246 then
    match r.max_stall_ms with
    | none => []
    | some n => [("fi.mau.msc2246.max_stall_ms", toString n)]
   else [])

/-- First-match lookup of a query parameter by name in a query string
represented as an ordered list of name-value pairs. -/
def lookupQuery (name : String) : List (String × String) → Option String
  | [] => none
  | (k, v) :: rest => if k = name then some v else lookupQuery name rest

/-- Modelled from the spec: parsing of the `allow_remote` query field,
restoring the declared default `true` when the parameter is absent and
decoding the boolean otherwise (a malformed value is a field-level decode
error, here `none`). -/
def parseAllowRemote (q : List (String × String)) : Option Bool :=
  match lookupQuery "allow_remote" q with
  | none => some true
  | some "true" => some true
  | some "false" => some false
  | some _ => none

/-- Modelled from the spec: parsing of the feature-gated `max_stall_ms`
query field from its wire name, restoring the default `None` when absent
and decoding the integer otherwise. -/
def parseMaxStallMs (q : List (String × String)) : Option (Option Nat) :=
  match lookupQuery "fi.mau.msc2246.max_stall_ms" q with
  | none => some none
  | some s => (s.toNat?).map some

/-- The full wire output of a thumbnail request at a given protocol
version and feature configuration: the resolved, substituted path together
with the query pairs. -/
def Request.wire (msc2246 : Bool) (v : MatrixVersion) (r : Request) :
    Except ResolveError (String × List (String × String)) :=
  (resolvePath thumbnailHistory v).map
    (fun t => (substPath t r.server_name r.media_id, r.queryPairs msc2246))

/-- The response of the `get_content_thumbnail` endpoint (lines 83-101 of
the source): a raw byte body and two optional headers. Bytes are embedded
as `Nat`. -/
structure Response where
  file : List Nat
  content_type : Option String
  cross_origin_resource_policy : Option String
deriving DecidableEq, Repr

/-- `Response::new` from the source: the body is the given bytes, the
content type is unset, and the Cross-Origin-Resource-Policy header
defaults to `cross-origin`. -/
def Response.new (file : List Nat) : Response :=
  { file := file
    content_type := none
    cross_origin_resource_policy := some "cross-origin" }

/-! ## Helper lemmas on the open enumerations -/

/-- Equality of custom-value wrappers is equality of the wrapped
strings. -/
theorem privOwnedStr_eq_iff (p q : PrivOwnedStr) : p = q ↔ p.s = q.s := by
  cases p; cases q; simp

/-- Parsing the serialization of a known `Method` recovers it. -/
theorem method_roundtrip (v : Method) (h : v.isKnown = true) :
    Method.fromStr v.as_str = v := by
  cases v <;> simp_all [Method.isKnown, Method.as_str, Method.fromStr]

/-- Parsing a non-canonical string yields the custom `Method` wrapping it,
and that custom value serializes back to the input. -/
theorem method_custom_spec (s : String) (h : s ∉ ["crop", "scale"]) :
    Method.fromStr s = Method._Custom ⟨s⟩ ∧ (Method.fromStr s).as_str = s := by
  simp only [List.mem_cons, List.not_mem_nil, or_false, not_or] at h
  refine ⟨?_, ?_⟩ <;> simp [Method.fromStr, h.1, h.2, Method.as_str]

/-- A parsed `Method` is known exactly when the input is one of the
canonical strings. -/
theorem method_known_iff (s : String) :
    (Method.fromStr s).isKnown = true ↔ (s = "crop" ∨ s = "scale") := by
  unfold Method.fromStr
  split_ifs with h1 h2 <;> simp_all [Method.isKnown]

/-- Characterization of equality on `Method`. -/
theorem method_eq_char (a b : Method) :
    a = b ↔ ((a.isKnown = true ∧ b.isKnown = true ∧ a.as_str = b.as_str) ∨
             (a.isKnown = false ∧ b.isKnown = false ∧ a.as_str = b.as_str)) := by
  cases a <;> cases b <;>
    simp [Method.isKnown, Method.as_str, privOwnedStr_eq_iff]

/-- Parsing the serialization of a known `HashAlgorithm` recovers it. -/
theorem hashAlgorithm_roundtrip (v : HashAlgorithm) (h : v.isKnown = true) :
    HashAlgorithm.fromStr v.as_str = v := by
  cases v <;> simp_all [HashAlgorithm.isKnown, HashAlgorithm.as_str, HashAlgorithm.fromStr]

/-- Parsing a non-canonical string yields the custom `HashAlgorithm`
wrapping it, and that custom value serializes back to the input. -/
theorem hashAlgorithm_custom_spec (s : String) (h : s ∉ ["sha256"]) :
    HashAlgorithm.fromStr s = HashAlgorithm._Custom ⟨s⟩ ∧
      (HashAlgorithm.fromStr s).as_str = s := by
  simp only [List.mem_cons, List.not_mem_nil, or_false, not_or] at h
  refine ⟨?_, ?_⟩ <;> simp [HashAlgorithm.fromStr, h, HashAlgorithm.as_str]

/-- Characterization of equality on `HashAlgorithm`. -/
theorem hashAlgorithm_eq_char (a b : HashAlgorithm) :
    a = b ↔ ((a.isKnown = true ∧ b.isKnown = true ∧ a.as_str = b.as_str) ∨
             (a.isKnown = false ∧ b.isKnown = false ∧ a.as_str = b.as_str)) := by
  cases a <;> cases b <;>
    simp [HashAlgorithm.isKnown, HashAlgorithm.as_str, privOwnedStr_eq_iff]

/-- Parsing the serialization of a known `KeyAgreementProtocol` recovers
it. -/
theorem keyAgreementProtocol_roundtrip (v : KeyAgreementProtocol)
    (h : v.isKnown = true) :
    KeyAgreementProtocol.fromStr v.as_str = v := by
  cases v <;> simp_all [KeyAgreementProtocol.isKnown, KeyAgreementProtocol.as_str,
    KeyAgreementProtocol.fromStr]

/-- Parsing a non-canonical string yields the custom
`KeyAgreementProtocol` wrapping it, and that custom value serializes back
to the input. -/
theorem keyAgreementProtocol_custom_spec (s : String)
    (h : s ∉ ["curve25519", "curve25519-hkdf-sha256"]) :
    KeyAgreementProtocol.fromStr s = KeyAgreementProtocol._Custom ⟨s⟩ ∧
      (KeyAgreementProtocol.fromStr s).as_str = s := by
  simp only [List.mem_cons, List.not_mem_nil, or_false, not_or] at h
  refine ⟨?_, ?_⟩ <;>
    simp [KeyAgreementProtocol.fromStr, h.1, h.2, KeyAgreementProtocol.as_str]

/-- Characterization of equality on `KeyAgreementProtocol`. -/
theorem keyAgreementProtocol_eq_char (a b : KeyAgreementProtocol) :
    a = b ↔ ((a.isKnown = true ∧ b.isKnown = true ∧ a.as_str = b.as_str) ∨
             (a.isKnown = false ∧ b.isKnown = false ∧ a.as_str = b.as_str)) := by
  cases a <;> cases b <;>
    simp [KeyAgreementProtocol.isKnown, KeyAgreementProtocol.as_str, privOwnedStr_eq_iff]

/-- Parsing the serialization of a known `MessageAuthenticationCode`
recovers it. -/
theorem messageAuthenticationCode_roundtrip (v : MessageAuthenticationCode)
    (h : v.isKnown = true) :
    MessageAuthenticationCode.fromStr v.as_str = v := by
  cases v <;> simp_all [MessageAuthenticationCode.isKnown,
    MessageAuthenticationCode.as_str, MessageAuthenticationCode.fromStr]

/-- Parsing a non-canonical string yields the custom
`MessageAuthenticationCode` wrapping it, and that custom value serializes
back to the input. -/
theorem messageAuthenticationCode_custom_spec (s : String)
    (h : s ∉ ["hkdf-hmac-sha256", "org.matrix.msc3783.hkdf-hmac-sha256", "hmac-sha256"]) :
    MessageAuthenticationCode.fromStr s = MessageAuthenticationCode._Custom ⟨s⟩ ∧
      (MessageAuthenticationCode.fromStr s).as_str = s := by
  simp only [List.mem_cons, List.not_mem_nil, or_false, not_or] at h
  refine ⟨?_, ?_⟩ <;>
    simp [MessageAuthenticationCode.fromStr, h.1, h.2.1, h.2.2,
      MessageAuthenticationCode.as_str]

/-- Characterization of equality on `MessageAuthenticationCode`. -/
theorem messageAuthenticationCode_eq_char (a b : MessageAuthenticationCode) :
    a = b ↔ ((a.isKnown = true ∧ b.isKnown = true ∧ a.as_str = b.as_str) ∨
             (a.isKnown = false ∧ b.isKnown = false ∧ a.as_str = b.as_str)) := by
  cases a <;> cases b <;>
    simp [MessageAuthenticationCode.isKnown, MessageAuthenticationCode.as_str,
      privOwnedStr_eq_iff]

/-- Parsing the serialization of a known `ShortAuthenticationString`
recovers it. -/
theorem shortAuthenticationString_roundtrip (v : ShortAuthenticationString)
    (h : v.isKnown = true) :
    ShortAuthenticationString.fromStr v.as_str = v := by
  cases v <;> simp_all [ShortAuthenticationString.isKnown,
    ShortAuthenticationString.as_str, ShortAuthenticationString.fromStr]

/-- Parsing a non-canonical string yields the custom
`ShortAuthenticationString` wrapping it, and that custom value serializes
back to the input. -/
theorem shortAuthenticationString_custom_spec (s : String)
    (h : s ∉ ["decimal", "emoji"]) :
    ShortAuthenticationString.fromStr s = ShortAuthenticationString._Custom ⟨s⟩ ∧
      (ShortAuthenticationString.fromStr s).as_str = s := by
  simp only [List.mem_cons, List.not_mem_nil, or_false, not_or] at h
  refine ⟨?_, ?_⟩ <;>
    simp [ShortAuthenticationString.fromStr, h.1, h.2, ShortAuthenticationString.as_str]

/-- Characterization of equality on `ShortAuthenticationString`. -/
theorem shortAuthenticationString_eq_char (a b : ShortAuthenticationString) :
    a = b ↔ ((a.isKnown = true ∧ b.isKnown = true ∧ a.as_str = b.as_str) ∨
             (a.isKnown = false ∧ b.isKnown = false ∧ a.as_str = b.as_str)) := by
  cases a <;> cases b <;>
    simp [ShortAuthenticationString.isKnown, ShortAuthenticationString.as_str,
      privOwnedStr_eq_iff]

/-- Parsing the serialization of a known `VerificationMethod` recovers
it. -/
theorem verificationMethod_roundtrip (v : VerificationMethod)
    (h : v.isKnown = true) :
    VerificationMethod.fromStr v.as_str = v := by
  cases v <;> simp_all [VerificationMethod.isKnown, VerificationMethod.as_str,
    VerificationMethod.fromStr]

/-- Parsing a non-canonical string yields the custom `VerificationMethod`
wrapping it, and that custom value serializes back to the input. -/
theorem verificationMethod_custom_spec (s : String)
    (h : s ∉ ["m.sas.v1", "m.qr_code.scan.v1", "m.qr_code.show.v1", "m.reciprocate.v1"]) :
    VerificationMethod.fromStr s = VerificationMethod._Custom ⟨s⟩ ∧
      (VerificationMethod.fromStr s).as_str = s := by
  simp only [List.mem_cons, List.not_mem_nil, or_false, not_or] at h
  refine ⟨?_, ?_⟩ <;>
    simp [VerificationMethod.fromStr, h.1, h.2.1, h.2.2.1, h.2.2.2,
      VerificationMethod.as_str]

/-- A parsed `VerificationMethod` is known exactly when the input is one
of the canonical strings. -/
theorem verificationMethod_known_iff (s : String) :
    (VerificationMethod.fromStr s).isKnown = true ↔
      (s = "m.sas.v1" ∨ s = "m.qr_code.scan.v1" ∨ s = "m.qr_code.show.v1" ∨
        s = "m.reciprocate.v1") := by
  unfold VerificationMethod.fromStr
  split_ifs with h1 h2 h3 h4 <;> simp_all [VerificationMethod.isKnown]

/-- Characterization of equality on `VerificationMethod`. -/
theorem verificationMethod_eq_char (a b : VerificationMethod) :
    a = b ↔ ((a.isKnown = true ∧ b.isKnown = true ∧ a.as_str = b.as_str) ∨
             (a.isKnown = false ∧ b.isKnown = false ∧ a.as_str = b.as_str)) := by
  cases a <;> cases b <;>
    simp [VerificationMethod.isKnown, VerificationMethod.as_str, privOwnedStr_eq_iff]

/-! ## Claims -/

/-- C1: for every open enumeration (`Method`, `HashAlgorithm`,
`KeyAgreementProtocol`, `MessageAuthenticationCode`,
`ShortAuthenticationString`, `VerificationMethod`) and every known variant
`v`, parsing the serialization of `v` recovers `v`; and for every
non-empty string `s` not equal to any canonical string of that
enumeration, parsing `s` yields a custom variant whose serialization
equals `s`. -/
theorem claim_C1 :
    ((∀ v : Method, v.isKnown = true → Method.fromStr v.as_str = v) ∧
     (∀ s : String, s ≠ "" → s ∉ ["crop", "scale"] →
       Method.fromStr s = Method._Custom ⟨s⟩ ∧ (Method.fromStr s).as_str = s)) ∧
    ((∀ v : HashAlgorithm, v.isKnown = true → HashAlgorithm.fromStr v.as_str = v) ∧
     (∀ s : String, s ≠ "" → s ∉ ["sha256"] →
       HashAlgorithm.fromStr s = HashAlgorithm._Custom ⟨s⟩ ∧
         (HashAlgorithm.fromStr s).as_str = s)) ∧
    ((∀ v : KeyAgreementProtocol, v.isKnown = true →
        KeyAgreementProtocol.fromStr v.as_str = v) ∧
     (∀ s : String, s ≠ "" → s ∉ ["curve25519", "curve25519-hkdf-sha256"] →
       KeyAgreementProtocol.fromStr s = KeyAgreementProtocol._Custom ⟨s⟩ ∧
         (KeyAgreementProtocol.fromStr s).as_str = s)) ∧
    ((∀ v : MessageAuthenticationCode, v.isKnown = true →
        MessageAuthenticationCode.fromStr v.as_str = v) ∧
     (∀ s : String, s ≠ "" →
       s ∉ ["hkdf-hmac-sha256", "org.matrix.msc3783.hkdf-hmac-sha256", "hmac-sha256"] →
       MessageAuthenticationCode.fromStr s = MessageAuthenticationCode._Custom ⟨s⟩ ∧
         (MessageAuthenticationCode.fromStr s).as_str = s)) ∧
    ((∀ v : ShortAuthenticationString, v.isKnown = true →
        ShortAuthenticationString.fromStr v.as_str = v) ∧
     (∀ s : String, s ≠ "" → s ∉ ["decimal", "emoji"] →
       ShortAuthenticationString.fromStr s = ShortAuthenticationString._Custom ⟨s⟩ ∧
         (ShortAuthenticationString.fromStr s).as_str = s)) ∧
    ((∀ v : VerificationMethod, v.isKnown = true →
        VerificationMethod.fromStr v.as_str = v) ∧
     (∀ s : String, s ≠ "" →
       s ∉ ["m.sas.v1", "m.qr_code.scan.v1", "m.qr_code.show.v1", "m.reciprocate.v1"] →
       VerificationMethod.fromStr s = VerificationMethod._Custom ⟨s⟩ ∧
         (VerificationMethod.fromStr s).as_str = s)) :=
  ⟨⟨method_roundtrip, fun s _ h => method_custom_spec s h⟩,
   ⟨hashAlgorithm_roundtrip, fun s _ h => hashAlgorithm_custom_spec s h⟩,
   ⟨keyAgreementProtocol_roundtrip, fun s _ h => keyAgreementProtocol_custom_spec s h⟩,
   ⟨messageAuthenticationCode_roundtrip,
     fun s _ h => messageAuthenticationCode_custom_spec s h⟩,
   ⟨shortAuthenticationString_roundtrip,
     fun s _ h => shortAuthenticationString_custom_spec s h⟩,
   ⟨verificationMethod_roundtrip, fun s _ h => verificationMethod_custom_spec s h⟩⟩

/-- Witness for C1 at concrete inputs: the known variant `Crop` round
trips, and the non-canonical non-empty string `center` parses to the
custom variant serializing back to itself. -/
theorem claim_C1_witness :
    Method.fromStr (Method.as_str Method.Crop) = Method.Crop ∧
    (Method.fromStr "center" = Method._Custom ⟨"center"⟩ ∧
      (Method.fromStr "center").as_str = "center") :=
  ⟨claim_C1.1.1 Method.Crop rfl, claim_C1.1.2 "center" (by decide) (by decide)⟩

/-- C2: open-enumeration parsing is total and never fails; it returns a
known variant exactly when the input is a case-sensitive, unnormalized
match of a canonical string, otherwise a custom variant wrapping the
input unchanged, and the empty string yields a custom variant rather than
an error (stated for the cited enumerations `Method` and
`VerificationMethod`; parsing is a total function by construction). -/
theorem claim_C2 :
    (∀ s : String, (Method.fromStr s).isKnown = true ↔ (s = "crop" ∨ s = "scale")) ∧
    (∀ s : String, s ∉ ["crop", "scale"] → Method.fromStr s = Method._Custom ⟨s⟩) ∧
    Method.fromStr "" = Method._Custom ⟨""⟩ ∧
    (∀ s : String, (VerificationMethod.fromStr s).isKnown = true ↔
      (s = "m.sas.v1" ∨ s = "m.qr_code.scan.v1" ∨ s = "m.qr_code.show.v1" ∨
        s = "m.reciprocate.v1")) ∧
    (∀ s : String,
      s ∉ ["m.sas.v1", "m.qr_code.scan.v1", "m.qr_code.show.v1", "m.reciprocate.v1"] →
      VerificationMethod.fromStr s = VerificationMethod._Custom ⟨s⟩) ∧
    VerificationMethod.fromStr "" = VerificationMethod._Custom ⟨""⟩ :=
  ⟨method_known_iff, fun s h => (method_custom_spec s h).1, by decide,
   verificationMethod_known_iff, fun s h => (verificationMethod_custom_spec s h).1,
   by decide⟩

/-- Witness for C2 at a concrete input: parsing is case-sensitive, so the
string `Crop` is not a known variant and parses to the custom variant
wrapping it unchanged. -/
theorem claim_C2_witness :
    ((Method.fromStr "Crop").isKnown = true ↔ ("Crop" = "crop" ∨ "Crop" = "scale")) ∧
    Method.fromStr "Crop" = Method._Custom ⟨"Crop"⟩ :=
  ⟨claim_C2.1 "Crop", claim_C2.2.1 "Crop" (by decide)⟩

/-- C9: for every open enumeration, two values compare equal iff both are
the same known variant (equivalently: both known with the same canonical
string) or both are custom with identical underlying strings; in
particular a custom value whose string equals a canonical string never
compares equal to the corresponding known variant. -/
theorem claim_C9 :
    (∀ a b : Method, a = b ↔
      ((a.isKnown = true ∧ b.isKnown = true ∧ a.as_str = b.as_str) ∨
       (a.isKnown = false ∧ b.isKnown = false ∧ a.as_str = b.as_str))) ∧
    (∀ a b : HashAlgorithm, a = b ↔
      ((a.isKnown = true ∧ b.isKnown = true ∧ a.as_str = b.as_str) ∨
       (a.isKnown = false ∧ b.isKnown = false ∧ a.as_str = b.as_str))) ∧
    (∀ a b : KeyAgreementProtocol, a = b ↔
      ((a.isKnown = true ∧ b.isKnown = true ∧ a.as_str = b.as_str) ∨
       (a.isKnown = false ∧ b.isKnown = false ∧ a.as_str = b.as_str))) ∧
    (∀ a b : MessageAuthenticationCode, a = b ↔
      ((a.isKnown = true ∧ b.isKnown = true ∧ a.as_str = b.as_str) ∨
       (a.isKnown = false ∧ b.isKnown = false ∧ a.as_str = b.as_str))) ∧
    (∀ a b : ShortAuthenticationString, a = b ↔
      ((a.isKnown = true ∧ b.isKnown = true ∧ a.as_str = b.as_str) ∨
       (a.isKnown = false ∧ b.isKnown = false ∧ a.as_str = b.as_str))) ∧
    (∀ a b : VerificationMethod, a = b ↔
      ((a.isKnown = true ∧ b.isKnown = true ∧ a.as_str = b.as_str) ∨
       (a.isKnown = false ∧ b.isKnown = false ∧ a.as_str = b.as_str))) ∧
    (Method._Custom ⟨"crop"⟩ = Method.Crop ↔ False) ∧
    (HashAlgorithm._Custom ⟨"sha256"⟩ = HashAlgorithm.Sha256 ↔ False) :=
  ⟨method_eq_char, hashAlgorithm_eq_char, keyAgreementProtocol_eq_char,
   messageAuthenticationCode_eq_char, shortAuthenticationString_eq_char,
   verificationMethod_eq_char, by simp, by simp⟩

/-- C3: serializing a thumbnail request with `allow_remote = true` omits
the `allow_remote` query parameter; parsing a query string lacking that
parameter yields `allow_remote = true`; serializing with
`allow_remote = false` emits `allow_remote=false`; and parsing a
serialized query always recovers the original `allow_remote` value (the
two-way default contract), under either feature configuration. -/
theorem claim_C3 :
    (∀ (b : Bool) (r : Request), r.allow_remote = true →
      lookupQuery "allow_remote" (r.queryPairs b) = none) ∧
    (∀ q : List (String × String), lookupQuery "allow_remote" q = none →
      parseAllowRemote q = some true) ∧
    (∀ (b : Bool) (r : Request), r.allow_remote = false →
      lookupQuery "allow_remote" (r.queryPairs b) = some "false") ∧
    (∀ (b : Bool) (r : Request),
      parseAllowRemote (r.queryPairs b) = some r.allow_remote) := by
  refine ⟨?_, ?_, ?_, ?_⟩
  · intro b r h
    rcases r with ⟨sn, mi, m, w, hg, ar, ms⟩
    subst h
    cases m <;> cases b <;> cases ms <;> simp [Request.queryPairs, lookupQuery]
  · intro q h
    simp [parseAllowRemote, h]
  · intro b r h
    rcases r with ⟨sn, mi, m, w, hg, ar, ms⟩
    subst h
    cases m <;> cases b <;> cases ms <;> simp [Request.queryPairs, lookupQuery]
  · intro b r
    rcases r with ⟨sn, mi, m, w, hg, ar, ms⟩
    cases m <;> cases b <;> cases ms <;> cases ar <;>
      simp [Request.queryPairs, lookupQuery, parseAllowRemote]

/-- Witness for C3 at concrete inputs: the request built by
`Request.new` (whose `allow_remote` is `true`) serializes without the
`allow_remote` parameter, and the empty query string parses to `true`. -/
theorem claim_C3_witness :
    lookupQuery "allow_remote"
      ((Request.new "abc123" "example.org" 64 64).queryPairs false) = none ∧
    parseAllowRemote [] = some true :=
  ⟨claim_C3.1 false (Request.new "abc123" "example.org" 64 64) rfl,
   claim_C3.2.1 [] rfl⟩

/-- C4: resolving the thumbnail endpoint path selects the history entry
with the greatest version at most the requested version; any version at or
above 1.1 resolves to the v3 template, a version at least 1.0 but below
1.1 resolves to the r0 template, any version below 1.0 (such as 0.9)
fails with `UnsupportedVersion` naming the minimum supported version, and
resolution is a function of the version alone. -/
theorem claim_C4 :
    (∀ v : MatrixVersion, MatrixVersion.le ⟨1, 1⟩ v = true →
      resolvePath thumbnailHistory v =
        .ok "/_matrix/media/v3/thumbnail/:server_name/:media_id") ∧
    (∀ v : MatrixVersion, MatrixVersion.le ⟨1, 0⟩ v = true →
      MatrixVersion.le ⟨1, 1⟩ v = false →
      resolvePath thumbnailHistory v =
        .ok "/_matrix/media/r0/thumbnail/:server_name/:media_id") ∧
    (∀ v : MatrixVersion, MatrixVersion.le ⟨1, 0⟩ v = false →
      resolvePath thumbnailHistory v =
        .error (.UnsupportedVersion ⟨1, 0⟩)) ∧
    resolvePath thumbnailHistory ⟨0, 9⟩ = .error (.UnsupportedVersion ⟨1, 0⟩) := by
  refine ⟨?_, ?_, ?_, rfl⟩
  · intro v h
    have h0 : MatrixVersion.le ⟨1, 0⟩ v = true := by
      rcases v with ⟨ma, mi⟩
      simp_all [MatrixVersion.le]
      omega
    simp [resolvePath, thumbnailHistory, List.filter, h, h0]
  · intro v h0 h1
    simp [resolvePath, thumbnailHistory, List.filter, h0, h1]
  · intro v h0
    have h1 : MatrixVersion.le ⟨1, 1⟩ v = false := by
      rcases v with ⟨ma, mi⟩
      simp_all [MatrixVersion.le]
    simp [resolvePath, thumbnailHistory, List.filter, h0, h1]

/-- Witness for C4 at concrete versions: 1.5 (above the highest entry)
resolves to the v3 template and 1.0 resolves to the r0 template. -/
theorem claim_C4_witness :
    resolvePath thumbnailHistory ⟨1, 5⟩ =
      .ok "/_matrix/media/v3/thumbnail/:server_name/:media_id" ∧
    resolvePath thumbnailHistory ⟨1, 0⟩ =
      .ok "/_matrix/media/r0/thumbnail/:server_name/:media_id" :=
  ⟨claim_C4.1 ⟨1, 5⟩ (by decide), claim_C4.2.1 ⟨1, 0⟩ (by decide) (by decide)⟩

/-- C5 counterexample: resolving the thumbnail endpoint at version 1.1
yields the template declared in the source, whose substitution with
server name `example.org` and media id `abc123` is the full path
`/_matrix/media/v3/thumbnail/example.org/abc123`, not the path
`/v3/thumbnail/example.org/abc123` stated by the claim. -/
theorem claim_C5_counterexample :
    resolvePath thumbnailHistory ⟨1, 1⟩ =
      Except.ok "/_matrix/media/v3/thumbnail/:server_name/:media_id" ∧
    (substPath "/_matrix/media/v3/thumbnail/:server_name/:media_id"
        "example.org" "abc123" =
      "/v3/thumbnail/example.org/abc123" ↔ False) :=
  ⟨rfl, iff_false_intro (by decide)⟩

/-- C5 amended: resolving the thumbnail endpoint path at version 1.1
with server name `example.org` and media id `abc123` produces exactly the
path `/_matrix/media/v3/thumbnail/example.org/abc123`. -/
theorem claim_C5 :
    (resolvePath thumbnailHistory ⟨1, 1⟩).map
      (fun t => substPath t "example.org" "abc123") =
    Except.ok "/_matrix/media/v3/thumbnail/example.org/abc123" := by
  rfl

/-- C6: building a thumbnail request through `Request.from_url` on the
content URI `mxc://example.org/abc123` with width 64 and height 64
succeeds and produces a request whose wire output (resolved substituted
path and query pairs) is identical, at every protocol version and feature
configuration, to that of the request built field-by-field with
`server_name = example.org`, `media_id = abc123`, `width = 64`,
`height = 64`, `allow_remote = true` and `method = None`. -/
theorem claim_C6 : ∀ (b : Bool) (v : MatrixVersion),
    (Request.from_url "mxc://example.org/abc123" 64 64).map (Request.wire b v) =
      Except.ok (Request.wire b v
        { server_name := "example.org", media_id := "abc123", method := none,
          width := 64, height := 64, allow_remote := true,
          max_stall_ms := none }) := by
  intro b v
  have h : Request.from_url "mxc://example.org/abc123" 64 64 =
      .ok { server_name := "example.org", media_id := "abc123", method := none,
            width := 64, height := 64, allow_remote := true,
            max_stall_ms := none } := by rfl
  rw [h]
  rfl

/-- C7: content-URI decomposition yields
`(server_name = example.org, media_id = abc123)` for
`mxc://example.org/abc123`, fails with `MalformedUri` on a URI lacking an
authority or a path component, and `Request.from_url` propagates that
failure without constructing a request. -/
theorem claim_C7 :
    decomposeMxc "mxc://example.org/abc123" = .ok ("example.org", "abc123") ∧
    decomposeMxc "mxc:///abc123" = .error .MalformedUri ∧
    decomposeMxc "mxc://example.org" = .error .MalformedUri ∧
    decomposeMxc "example.org/abc123" = .error .MalformedUri ∧
    Request.from_url "mxc:///abc123" 64 64 = .error .MalformedUri :=
  ⟨rfl, rfl, rfl, rfl, rfl⟩

/-- C8: for every byte sequence `f`, `Response.new f` produces a response
whose raw body is exactly `f`, whose Content-Type field is unset, and
whose Cross-Origin-Resource-Policy field is set to `cross-origin`. -/
theorem claim_C8 : ∀ f : List Nat,
    (Response.new f).file = f ∧
    (Response.new f).content_type = none ∧
    (Response.new f).cross_origin_resource_policy = some "cross-origin" :=
  fun _ => ⟨rfl, rfl, rfl⟩

/-- C10: with the `unstable-msc2246` feature enabled, the `max_stall_ms`
field is serialized under the wire name `fi.mau.msc2246.max_stall_ms`,
omitted from the query string when `None` and restored to `None` when
absent on parse; `Request.new` initializes it to `None`, so a request
built by `Request.new` produces the same query string whether or not the
feature is enabled. -/
theorem claim_C10 :
    (∀ r : Request, r.max_stall_ms = none →
      lookupQuery "fi.mau.msc2246.max_stall_ms" (r.queryPairs true) = none) ∧
    (∀ (r : Request) (n : Nat), r.max_stall_ms = some n →
      lookupQuery "fi.mau.msc2246.max_stall_ms" (r.queryPairs true) =
        some (toString n)) ∧
    (∀ q : List (String × String),
      lookupQuery "fi.mau.msc2246.max_stall_ms" q = none →
      parseMaxStallMs q = some none) ∧
    (∀ (mi sn : String) (w h : Nat), (Request.new mi sn w h).max_stall_ms = none) ∧
    (∀ (mi sn : String) (w h : Nat),
      (Request.new mi sn w h).queryPairs true =
        (Request.new mi sn w h).queryPairs false) := by
  refine ⟨?_, ?_, ?_, fun _ _ _ _ => rfl, fun _ _ _ _ => rfl⟩
  · intro r h
    rcases r with ⟨sn, mi, m, w, hg, ar, ms⟩
    subst h
    cases m <;> cases ar <;> simp [Request.queryPairs, lookupQuery]
  · intro r n h
    rcases r with ⟨sn, mi, m, w, hg, ar, ms⟩
    subst h
    cases m <;> cases ar <;> simp [Request.queryPairs, lookupQuery]
  · intro q h
    simp [parseMaxStallMs, h]

/-- Witness for C10 at concrete inputs: the request built by
`Request.new` serializes without the stall parameter, a request carrying
`max_stall_ms = 5` serializes it under the unstable wire name, and a
query string lacking the parameter parses back to `None`. -/
theorem claim_C10_witness :
    lookupQuery "fi.mau.msc2246.max_stall_ms"
      ((Request.new "abc123" "example.org" 64 64).queryPairs true) = none ∧
    lookupQuery "fi.mau.msc2246.max_stall_ms"
      (Request.queryPairs true
        { Request.new "abc123" "example.org" 64 64 with max_stall_ms := some 5 }) =
      some (toString 5) ∧
    parseMaxStallMs [("width", "64")] = some none :=
  ⟨claim_C10.1 (Request.new "abc123" "example.org" 64 64) rfl,
   claim_C10.2.1
     { Request.new "abc123" "example.org" 64 64 with max_stall_ms := some 5 } 5 rfl,
   claim_C10.2.2.1 [("width", "64")] rfl⟩

end Ruma
